import Mathlib

/-!
Verification development for the AI-Agents repository.

The repository is a thin orchestration layer: a YouTube summarizer
(`classes/YouTubeSummarizer.py`) and a multi-tool question-answering agent
(`classes/MultiTools.py`).  We shallowly embed the pure/decidable parts of
both classes: URL parsing, transcript joining, error raising, the prompt
rendering, and the generation options passed to the external completion
client.  External services (the transcript API and the completion model)
are modelled as explicit function parameters; each embedded operation also
returns a record of the external calls it made, so that "called exactly
once" / "no call attempted" properties are provable.

Python `str` values manipulated character-wise are modelled as `List Char`;
Python exceptions are modelled with `Except` over an error type mirroring
the exception classes and messages the code raises.
-/

/-- Python exceptions raised by the embedded code: `ValueError(msg)`,
`IndexError` (from out-of-range list indexing) and a generic
`Exception(msg)` used by the blanket `raise Exception(f"...")` wrappers. -/
inductive PyErr where
  | valueError (msg : String)
  | indexError
  | exception (msg : String)
deriving DecidableEq, Repr

/-- Python's substring test `sep in s`, on the character-list model.
`containsSub sep s` is true iff `sep` occurs contiguously in `s`
(the empty separator occurs in every string, as in Python). -/
def containsSub (sep : List Char) : List Char → Bool
  | [] => sep.isEmpty
  | c :: rest => sep.isPrefixOf (c :: rest) || containsSub sep rest

/-- The shortened-link marker tested first by `get_video_id`. -/
def youtuBeMarker : List Char := "youtu.be".toList

/-- The canonical-link marker tested second by `get_video_id`. -/
def youtubeComMarker : List Char := "youtube.com".toList

/-- Helper for the splitting functions: prepend a character to the first
chunk of a chunk list (used when the scanned character is not part of a
separator occurrence). -/
def consHead (c : Char) : List (List Char) → List (List Char)
  | [] => [[c]]
  | h :: t => (c :: h) :: t

/-- Python's `s.split(sep)` for a one-character separator `sep`, on the
character-list model: chunks between occurrences of the separator, with
empty chunks kept (so the result always has one more element than the
number of occurrences). -/
def splitChar (sep : Char) : List Char → List (List Char)
  | [] => [[]]
  | c :: rest =>
    if c = sep then [] :: splitChar sep rest else consHead c (splitChar sep rest)

/-- Python's `s.split("v=")`: the two-character separator used by the
canonical-URL branch of `get_video_id`.  Scanning is left to right and
non-overlapping, exactly as in Python's `str.split`. -/
def splitVEq : List Char → List (List Char)
  | [] => [[]]
  | [c] => [[c]]
  | c :: d :: rest =>
    if c = 'v' ∧ d = '=' then [] :: splitVEq rest
    else consHead c (splitVEq (d :: rest))

/-- `YouTubeSummarizer.get_video_id`.  Faithful to the source:
if `"youtu.be" in url` return `url.split("/")[-1].split("?")[0]`;
elif `"youtube.com" in url` return `url.split("v=")[1].split("&")[0]`;
else raise `ValueError(...)`.  The partial list indexings `[-1]`, `[0]`
and `[1]` are modelled with `getLast?`/`head?`/`[1]?`, failing with
`IndexError` when out of range, as in Python. -/
def get_video_id (url : List Char) : Except PyErr (List Char) :=
  if containsSub youtuBeMarker url then
    match (splitChar '/' url).getLast? with
    | some seg =>
      match (splitChar '?' seg).head? with
      | some v => Except.ok v
      | none => Except.error PyErr.indexError
    | none => Except.error PyErr.indexError
  else if containsSub youtubeComMarker url then
    match (splitVEq url)[1]? with
    | some part =>
      match (splitChar '&' part).head? with
      | some v => Except.ok v
      | none => Except.error PyErr.indexError
    | none => Except.error PyErr.indexError
  else
    Except.error (PyErr.valueError ("URL must be a valid YouTube URL (youtube.com or youtu.be format)"))

/-- Spec-side helper (from the spec's words): the prefix of `s` up to the
first occurrence of the character `sep`, or all of `s` when `sep` does not
occur — "up to the next `&` (or end of string)" / "with any trailing query
string stripped". -/
def takeUntilChar (sep : Char) : List Char → List Char
  | [] => []
  | c :: rest => if c = sep then [] else c :: takeUntilChar sep rest

/-- Spec-side helper (from the spec's words): the suffix of `s` after the
last occurrence of the character `sep` — "the path segment following the
final `/`" — or all of `s` when `sep` does not occur. -/
def lastSegChar (sep : Char) : List Char → List Char
  | [] => []
  | c :: rest =>
    if containsSub [sep] rest then lastSegChar sep rest
    else if c = sep then rest else c :: rest

/-- Spec-side helper (from the spec's words): everything after the first
occurrence of the substring `"v="`, or `none` when `"v="` does not occur. -/
def afterFirstVEq : List Char → Option (List Char)
  | [] => none
  | [_] => none
  | c :: d :: rest =>
    if c = 'v' ∧ d = '=' then some rest else afterFirstVEq (d :: rest)

/-- Spec-side helper: everything before the first occurrence of `"v="`
(all of `s` when it does not occur). -/
def beforeFirstVEq : List Char → List Char
  | [] => []
  | [c] => [c]
  | c :: d :: rest =>
    if c = 'v' ∧ d = '=' then [] else c :: beforeFirstVEq (d :: rest)

/-- Number of (left-to-right, non-overlapping) occurrences of the
substring `"v="` in `s`. -/
def countVEq : List Char → Nat
  | [] => 0
  | [_] => 0
  | c :: d :: rest =>
    if c = 'v' ∧ d = '=' then countVEq rest + 1 else countVEq (d :: rest)

example : get_video_id ("https://youtu.be/abc123?t=5".toList) = Except.ok ("abc123".toList) := by rfl
example : get_video_id ("https://www.youtube.com/watch?v=XYZ&t=10".toList) = Except.ok ("XYZ".toList) := by rfl
example : get_video_id ("https://www.youtube.com/feed".toList) = Except.error PyErr.indexError := by rfl
example : get_video_id ("https://youtu.be/".toList) = Except.ok [] := by rfl
example : get_video_id ("https://example.com/x".toList)
    = Except.error (PyErr.valueError ("URL must be a valid YouTube URL (youtube.com or youtu.be format)")) := by rfl
example : get_video_id ("https://www.youtube.com/watch?v=XYZv=W".toList) = Except.ok ("XYZ".toList) := by rfl
example : countVEq ("https://www.youtube.com/watch?v=XYZ&t=10".toList) = 1 := by rfl
example : afterFirstVEq ("https://www.youtube.com/watch?v=XYZ&t=10".toList) = some ("XYZ&t=10".toList) := by rfl

/-! ### Lemmas about the splitting functions -/

theorem consHead_ne_nil (c : Char) (l : List (List Char)) : consHead c l ≠ [] := by
  cases l <;> simp [consHead]

theorem splitChar_ne_nil (sep : Char) (s : List Char) : splitChar sep s ≠ [] := by
  cases s with
  | nil => simp [splitChar]
  | cons c rest =>
    by_cases h : c = sep
    · simp [splitChar, h]
    · simp only [splitChar, if_neg h]
      exact consHead_ne_nil _ _

theorem splitVEq_ne_nil (s : List Char) : splitVEq s ≠ [] := by
  match s with
  | [] => simp [splitVEq]
  | [c] => simp [splitVEq]
  | c :: d :: rest =>
    by_cases h : c = 'v' ∧ d = '='
    · simp [splitVEq, h]
    · simp only [splitVEq, if_neg h]
      exact consHead_ne_nil _ _

theorem splitChar_head? (sep : Char) (s : List Char) :
    (splitChar sep s).head? = some (takeUntilChar sep s) := by
  induction s with
  | nil => simp [splitChar, takeUntilChar]
  | cons c rest ih =>
    by_cases h : c = sep
    · simp [splitChar, takeUntilChar, h]
    · rcases e : splitChar sep rest with _ | ⟨hd, tl⟩
      · exact absurd e (splitChar_ne_nil sep rest)
      · rw [e] at ih
        simp only [List.head?, Option.some.injEq] at ih
        simp [splitChar, h, consHead, e, takeUntilChar, ih]

theorem splitChar_of_not_contains (sep : Char) (s : List Char)
    (h : containsSub [sep] s = false) : splitChar sep s = [s] := by
  induction s with
  | nil => simp [splitChar]
  | cons c rest ih =>
    simp only [containsSub, Bool.or_eq_false_iff] at h
    have hc : ¬ c = sep := by
      intro hc
      simp [List.isPrefixOf, hc] at h
    rw [splitChar, if_neg hc, ih h.2, consHead]

theorem two_le_splitChar_length (sep : Char) (s : List Char)
    (h : containsSub [sep] s = true) : 2 ≤ (splitChar sep s).length := by
  induction s with
  | nil => simp [containsSub] at h
  | cons c rest ih =>
    by_cases hc : c = sep
    · rcases e : splitChar sep rest with _ | ⟨hd, tl⟩
      · exact absurd e (splitChar_ne_nil sep rest)
      · simp [splitChar, hc, e]
    · simp only [containsSub, Bool.or_eq_true] at h
      have hrest : containsSub [sep] rest = true := by
        rcases h with h | h
        · exfalso
          simp [List.isPrefixOf] at h
          exact hc h.symm
        · exact h
      rcases e : splitChar sep rest with _ | ⟨hd, tl⟩
      · exact absurd e (splitChar_ne_nil sep rest)
      · have := ih hrest
        rw [e] at this
        simp only [List.length_cons] at this
        simp [splitChar, hc, consHead, e]
        omega

theorem lastSegChar_of_not_contains (sep : Char) (s : List Char)
    (h : containsSub [sep] s = false) : lastSegChar sep s = s := by
  cases s with
  | nil => simp [lastSegChar]
  | cons c rest =>
    simp only [containsSub, Bool.or_eq_false_iff] at h
    have hc : ¬ c = sep := by
      intro hc
      simp [List.isPrefixOf, hc] at h
    rw [lastSegChar, if_neg (by simp [h.2]), if_neg hc]

theorem splitChar_getLast? (sep : Char) (s : List Char) :
    (splitChar sep s).getLast? = some (lastSegChar sep s) := by
  induction s with
  | nil => simp [splitChar, lastSegChar]
  | cons c rest ih =>
    rcases e : splitChar sep rest with _ | ⟨hd, tl⟩
    · exact absurd e (splitChar_ne_nil sep rest)
    · rw [e] at ih
      by_cases h : c = sep
      · rw [splitChar, if_pos h, e, List.getLast?_cons_cons, ih, lastSegChar]
        by_cases hr : containsSub [sep] rest = true
        · rw [if_pos hr]
        · rw [if_neg hr, if_pos h,
            lastSegChar_of_not_contains sep rest (by simpa using hr)]
      · rw [splitChar, if_neg h, e, consHead]
        rcases tl with _ | ⟨d, tl'⟩
        · have hr : ¬ containsSub [sep] rest = true := by
            intro hr
            have := two_le_splitChar_length sep rest hr
            rw [e] at this
            simp at this
          have hrest : splitChar sep rest = [rest] :=
            splitChar_of_not_contains sep rest (by simpa using hr)
          rw [e] at hrest
          injection hrest with h1 _
          subst h1
          simp only [List.getLast?_singleton]
          rw [lastSegChar, if_neg hr, if_neg h]
        · have hr : containsSub [sep] rest = true := by
            by_contra hr
            have := splitChar_of_not_contains sep rest (by simpa using hr)
            rw [e] at this
            simp at this
          rw [List.getLast?_cons_cons, ← List.getLast?_cons_cons (a := hd), ih,
            lastSegChar, if_pos hr]

theorem splitVEq_of_afterFirst_some (s t : List Char)
    (h : afterFirstVEq s = some t) :
    splitVEq s = beforeFirstVEq s :: splitVEq t := by
  induction s using splitVEq.induct with
  | case1 => simp [afterFirstVEq] at h
  | case2 c => simp [afterFirstVEq] at h
  | case3 c d rest hc ih =>
    rw [afterFirstVEq, if_pos hc] at h
    injection h with h
    subst h
    rw [splitVEq, if_pos hc, beforeFirstVEq, if_pos hc]
  | case4 c d rest hc ih =>
    rw [afterFirstVEq, if_neg hc] at h
    rw [splitVEq, if_neg hc, beforeFirstVEq, if_neg hc, ih h, consHead]

theorem countVEq_of_afterFirst_some (s t : List Char)
    (h : afterFirstVEq s = some t) : countVEq s = countVEq t + 1 := by
  induction s using splitVEq.induct with
  | case1 => simp [afterFirstVEq] at h
  | case2 c => simp [afterFirstVEq] at h
  | case3 c d rest hc ih =>
    rw [afterFirstVEq, if_pos hc] at h
    injection h with h
    subst h
    rw [countVEq, if_pos hc]
  | case4 c d rest hc ih =>
    rw [afterFirstVEq, if_neg hc] at h
    rw [countVEq, if_neg hc, ih h]

theorem afterFirstVEq_none_of_countVEq_zero (s : List Char)
    (h : countVEq s = 0) : afterFirstVEq s = none := by
  induction s using splitVEq.induct with
  | case1 => simp [afterFirstVEq]
  | case2 c => simp [afterFirstVEq]
  | case3 c d rest hc ih =>
    rw [countVEq, if_pos hc] at h
    simp at h
  | case4 c d rest hc ih =>
    rw [countVEq, if_neg hc] at h
    rw [afterFirstVEq, if_neg hc, ih h]

theorem splitVEq_of_afterFirst_none (s : List Char)
    (h : afterFirstVEq s = none) : splitVEq s = [s] := by
  induction s using splitVEq.induct with
  | case1 => simp [splitVEq]
  | case2 c => simp [splitVEq]
  | case3 c d rest hc ih =>
    rw [afterFirstVEq, if_pos hc] at h
    simp at h
  | case4 c d rest hc ih =>
    rw [afterFirstVEq, if_neg hc] at h
    rw [splitVEq, if_neg hc, ih h, consHead]

/-! ### Claims about `get_video_id` -/

/-- C4: for every URL string containing the shortened-link marker
`"youtu.be"`, `get_video_id` returns exactly the path segment after the
last `/` (the whole URL when no `/` occurs) with any `?`-introduced suffix
removed. -/
theorem get_video_id_shortened (url : List Char)
    (h : containsSub youtuBeMarker url = true) :
    get_video_id url = Except.ok (takeUntilChar '?' (lastSegChar '/' url)) := by
  rw [get_video_id, if_pos (by simp [h]), splitChar_getLast? '/' url]
  simp [splitChar_head?]

/-- C4 witness: the spec's own example, `https://youtu.be/abc123?t=5`
yields `abc123`. -/
theorem get_video_id_shortened_witness :
    get_video_id ("https://youtu.be/abc123?t=5".toList)
      = Except.ok (takeUntilChar '?' (lastSegChar '/' ("https://youtu.be/abc123?t=5".toList)))
    ∧ takeUntilChar '?' (lastSegChar '/' ("https://youtu.be/abc123?t=5".toList)) = "abc123".toList :=
  ⟨get_video_id_shortened _ rfl, rfl⟩

/-- C2 (amended): for every URL string that does not contain `"youtu.be"`,
does contain `"youtube.com"`, and contains exactly one occurrence of
`"v="`, `get_video_id` returns the substring after that occurrence up to
the next `&` (or to the end of the string if no `&` follows). -/
theorem get_video_id_canonical_single_vEq (url t : List Char)
    (h1 : containsSub youtuBeMarker url = false)
    (h2 : containsSub youtubeComMarker url = true)
    (hcount : countVEq url = 1)
    (hafter : afterFirstVEq url = some t) :
    get_video_id url = Except.ok (takeUntilChar '&' t) := by
  have hzero : countVEq t = 0 := by
    have := countVEq_of_afterFirst_some url t hafter
    omega
  have hnone := afterFirstVEq_none_of_countVEq_zero t hzero
  have hsplit : splitVEq url = [beforeFirstVEq url, t] := by
    rw [splitVEq_of_afterFirst_some url t hafter, splitVEq_of_afterFirst_none t hnone]
  rw [get_video_id, if_neg (by simp [h1]), if_pos (by simp [h2]), hsplit]
  simp [splitChar_head?]

/-- C2 witness: the spec's own example,
`https://www.youtube.com/watch?v=XYZ&t=10` yields `XYZ`. -/
theorem get_video_id_canonical_single_vEq_witness :
    countVEq ("https://www.youtube.com/watch?v=XYZ&t=10".toList) = 1
    ∧ get_video_id ("https://www.youtube.com/watch?v=XYZ&t=10".toList)
        = Except.ok (takeUntilChar '&' ("XYZ&t=10".toList))
    ∧ takeUntilChar '&' ("XYZ&t=10".toList) = "XYZ".toList :=
  ⟨rfl, get_video_id_canonical_single_vEq _ _ rfl rfl rfl rfl, rfl⟩

/-- C2 counterexample: on `https://www.youtube.com/watch?v=XYZv=W` (which
contains `"youtube.com"`, not `"youtu.be"`, and contains `"v="` twice) the
code returns `XYZ` — the chunk between the first and second occurrence of
`v=` — whereas the claim's described value, the substring after the first
occurrence of `v=` up to the next `&` or end of string, is `XYZv=W`. -/
theorem get_video_id_canonical_counterexample :
    containsSub youtuBeMarker ("https://www.youtube.com/watch?v=XYZv=W".toList) = false
    ∧ containsSub youtubeComMarker ("https://www.youtube.com/watch?v=XYZv=W".toList) = true
    ∧ afterFirstVEq ("https://www.youtube.com/watch?v=XYZv=W".toList) = some ("XYZv=W".toList)
    ∧ takeUntilChar '&' ("XYZv=W".toList) = "XYZv=W".toList
    ∧ get_video_id ("https://www.youtube.com/watch?v=XYZv=W".toList) = Except.ok ("XYZ".toList)
    ∧ "XYZ".toList ≠ "XYZv=W".toList :=
  ⟨rfl, rfl, rfl, rfl, rfl, by decide⟩

/-- C3 (amended): an identifier is only ever produced from a URL
containing one of the two recognized markers, and construction fails with
the `InvalidURL` `ValueError` otherwise; the returned identifier is not
guaranteed to be non-empty. -/
theorem get_video_id_recognized_shapes (url : List Char) :
    (∀ v, get_video_id url = Except.ok v →
      containsSub youtuBeMarker url = true ∨ containsSub youtubeComMarker url = true)
    ∧ (containsSub youtuBeMarker url = false → containsSub youtubeComMarker url = false →
      get_video_id url
        = Except.error (PyErr.valueError ("URL must be a valid YouTube URL (youtube.com or youtu.be format)"))) := by
  constructor
  · intro v hv
    by_cases h1 : containsSub youtuBeMarker url = true
    · exact Or.inl h1
    · by_cases h2 : containsSub youtubeComMarker url = true
      · exact Or.inr h2
      · rw [get_video_id, if_neg (by simpa using h1), if_neg (by simpa using h2)] at hv
        exact absurd hv (by simp)
  · intro h1 h2
    rw [get_video_id, if_neg (by simp [h1]), if_neg (by simp [h2])]

/-- C3 witness: instantiations of both conjuncts of the amended claim. -/
theorem get_video_id_recognized_shapes_witness :
    (containsSub youtuBeMarker ("https://youtu.be/xyz".toList) = true
      ∨ containsSub youtubeComMarker ("https://youtu.be/xyz".toList) = true)
    ∧ get_video_id ("https://example.com/x".toList)
        = Except.error (PyErr.valueError ("URL must be a valid YouTube URL (youtube.com or youtu.be format)")) :=
  ⟨(get_video_id_recognized_shapes _).1 ("xyz".toList) rfl,
    (get_video_id_recognized_shapes _).2 rfl rfl⟩

/-- C3 counterexample: the URL `https://youtu.be/` contains the
shortened-link marker and `get_video_id` returns on it — but it returns
the empty identifier, refuting the claimed non-emptiness invariant. -/
theorem get_video_id_empty_counterexample :
    containsSub youtuBeMarker ("https://youtu.be/".toList) = true
    ∧ get_video_id ("https://youtu.be/".toList) = Except.ok ([] : List Char) :=
  ⟨rfl, rfl⟩

/-- C8: for every URL string containing neither `"youtu.be"` nor
`"youtube.com"`, `get_video_id` fails with the `InvalidURL` `ValueError`. -/
theorem get_video_id_invalid_url (url : List Char)
    (h1 : containsSub youtuBeMarker url = false)
    (h2 : containsSub youtubeComMarker url = false) :
    get_video_id url
      = Except.error (PyErr.valueError ("URL must be a valid YouTube URL (youtube.com or youtu.be format)")) := by
  rw [get_video_id, if_neg (by simp [h1]), if_neg (by simp [h2])]

/-- C8 witness: a URL matching neither marker. -/
theorem get_video_id_invalid_url_witness :
    get_video_id ("https://vimeo.com/12345".toList)
      = Except.error (PyErr.valueError ("URL must be a valid YouTube URL (youtube.com or youtu.be format)")) :=
  get_video_id_invalid_url _ rfl rfl

/-- C9: on `https://www.youtube.com/feed` — a URL containing
`"youtube.com"` but no `"v="` — `get_video_id` fails with the
out-of-range indexing error (Python `IndexError` from `split("v=")[1]` on
a one-element list), not with the `InvalidURL` `ValueError`: the
canonical branch's indexing is partial. -/
theorem get_video_id_feed_indexError :
    get_video_id ("https://www.youtube.com/feed".toList) = Except.error PyErr.indexError
    ∧ get_video_id ("https://www.youtube.com/feed".toList)
        ≠ Except.error (PyErr.valueError ("URL must be a valid YouTube URL (youtube.com or youtu.be format)")) :=
  ⟨rfl, fun hcontra => by
    rw [show get_video_id ("https://www.youtube.com/feed".toList)
        = Except.error PyErr.indexError from rfl] at hcontra
    exact PyErr.noConfusion (Except.error.inj hcontra)⟩

/-! ### Transcript fetching (`YouTubeSummarizer.get_transcript`) -/

/-- One caption record as delivered by the external transcript service.
The service delivers `{text, start, duration}` records; only the `text`
field is ever consumed by the code, so only it is modelled. -/
structure TranscriptSegment where
  text : String
deriving DecidableEq, Repr

/-- Python's `" ".join(parts)`: the parts joined in order with a single
space between consecutive parts. -/
def joinSpace : List String → String
  | [] => ""
  | [t] => t
  | t :: rest => t ++ " " ++ joinSpace rest

theorem string_append_assoc (a b c : String) : a ++ b ++ c = a ++ (b ++ c) := by
  rcases a with ⟨a⟩
  rcases b with ⟨b⟩
  rcases c with ⟨c⟩
  show String.mk (a ++ b ++ c) = String.mk (a ++ (b ++ c))
  rw [List.append_assoc]

theorem intercalate_go_eq_joinSpace (as : List String) (acc : String) :
    String.intercalate.go acc " " as = joinSpace (acc :: as) := by
  induction as generalizing acc with
  | nil => rfl
  | cons a as ih =>
    rw [String.intercalate.go, ih]
    cases as with
    | nil => rfl
    | cons b t =>
      show acc ++ " " ++ a ++ " " ++ joinSpace (b :: t)
        = acc ++ " " ++ (a ++ " " ++ joinSpace (b :: t))
      simp only [string_append_assoc]

/-- The model's space-join agrees with the library's
`String.intercalate " "` (an independent description of Python's
`" ".join`). -/
theorem joinSpace_eq_intercalate (l : List String) :
    joinSpace l = String.intercalate " " l := by
  cases l with
  | nil => rfl
  | cons a as => rw [String.intercalate, intercalate_go_eq_joinSpace]

/-- `YouTubeSummarizer.get_transcript`.  The external transcript service
is passed in as `svc`; the second component of the result counts how many
times the service was called.  Faithful to the source: raise
`ValueError("Video ID is required")` when `not video_id`; otherwise call
the service once and either space-join the segment texts or wrap the
failure in `Exception(f"Failed to retrieve transcript: {e}")`. -/
def get_transcript (svc : String → Except String (List TranscriptSegment))
    (video_id : String) : Except PyErr String × Nat :=
  if video_id.isEmpty then
    (Except.error (PyErr.valueError ("Video ID is required")), 0)
  else
    match svc video_id with
    | Except.ok segs =>
      (Except.ok (joinSpace (segs.map TranscriptSegment.text)), 1)
    | Except.error e =>
      (Except.error (PyErr.exception ("Failed to retrieve transcript: " ++ e)), 1)

/-- C5: `get_transcript` fails with the `MissingArgument` `ValueError` iff
the video identifier is empty (making no service call); on a non-empty
identifier it calls the transcript service exactly once — no retry — and
on any service failure it fails with the wrapping `TranscriptUnavailable`
exception carrying the cause. -/
theorem get_transcript_spec (svc : String → Except String (List TranscriptSegment))
    (video_id : String) :
    ((get_transcript svc video_id).1 = Except.error (PyErr.valueError ("Video ID is required"))
      ↔ video_id.isEmpty = true)
    ∧ (video_id.isEmpty = true → (get_transcript svc video_id).2 = 0)
    ∧ (video_id.isEmpty = false →
        (get_transcript svc video_id).2 = 1
        ∧ ∀ e, svc video_id = Except.error e →
            (get_transcript svc video_id).1
              = Except.error (PyErr.exception ("Failed to retrieve transcript: " ++ e))) := by
  by_cases he : video_id.isEmpty = true
  · simp [get_transcript, he]
  · rcases hsvc : svc video_id with segs | e <;>
      simp [get_transcript, he, hsvc]

/-- C5 witness: a failing service call on a non-empty identifier is
wrapped once, with one call made. -/
theorem get_transcript_spec_witness :
    ("abc".isEmpty = false)
    ∧ (get_transcript (fun _ => Except.error ("boom")) "abc").2 = 1
    ∧ (get_transcript (fun _ => Except.error ("boom")) "abc").1
        = Except.error (PyErr.exception ("Failed to retrieve transcript: " ++ "boom")) := by
  have h := (get_transcript_spec (fun _ => Except.error ("boom")) "abc").2.2 rfl
  exact ⟨rfl, h.1, h.2 "boom" rfl⟩

/-- C6: for every ordered sequence of transcript segments delivered by the
service, `get_transcript` returns the segment texts joined with
single-space separators in delivery order (no deduplication or
re-flowing): the result is exactly `String.intercalate " "` of the texts. -/
theorem get_transcript_join (svc : String → Except String (List TranscriptSegment))
    (video_id : String) (segs : List TranscriptSegment)
    (hne : video_id.isEmpty = false) (hsvc : svc video_id = Except.ok segs) :
    (get_transcript svc video_id).1
      = Except.ok (String.intercalate " " (segs.map TranscriptSegment.text)) := by
  simp [get_transcript, hne, hsvc, joinSpace_eq_intercalate]

/-- C6 witness: the spec's own example — segments with texts `a`, `b`,
`c` yield the transcript `"a b c"`. -/
theorem get_transcript_join_witness :
    (get_transcript (fun _ => Except.ok [⟨"a"⟩, ⟨"b"⟩, ⟨"c"⟩]) "vid").1
      = Except.ok (String.intercalate " " ([⟨"a"⟩, ⟨"b"⟩, (⟨"c"⟩ : TranscriptSegment)].map TranscriptSegment.text))
    ∧ String.intercalate " " ["a", "b", "c"] = "a b c" :=
  ⟨get_transcript_join _ _ _ rfl rfl, by decide⟩

/-! ### Completion client options and prompt rendering -/

/-- The keyword arguments passed to the `ChatGroq` constructor at the two
call sites.  The Python literals `0.5` and `0` are modelled exactly as
rationals; `max_tokens=None` and `timeout=None` as `none`. -/
structure ChatGroqOptions where
  model : String
  temperature : ℚ
  max_tokens : Option Nat
  timeout : Option ℚ
  max_retries : Nat
deriving DecidableEq, Repr

/-- The model identifier set by both constructors (`self.model_name`). -/
def model_name : String := "llama-3.2-3b-preview"

/-- Default number of key points (`self.top_n_points` in
`YouTubeSummarizer.__init__`). -/
def top_n_points : Nat := 5

/-- The `ChatGroq(...)` options built inside `YouTubeSummarizer.summarize`
(source lines 122-128): `temperature=0.5`, `max_tokens=None`,
`timeout=None`, `max_retries=2`. -/
def summarizeChatGroqOptions : ChatGroqOptions :=
  { model := model_name, temperature := 1/2, max_tokens := none,
    timeout := none, max_retries := 2 }

/-- The `ChatGroq(...)` options built inside `MultiToolsAgent.ask`
(source lines 108-114): `temperature=0`, `max_tokens=None`,
`timeout=None`, `max_retries=2`. -/
def multiToolsChatGroqOptions : ChatGroqOptions :=
  { model := model_name, temperature := 0, max_tokens := none,
    timeout := none, max_retries := 2 }

/-- One entry of the agent's tool registry: `Tool(name=..., description=...)`.
The `func` member is an opaque external callable and is not modelled. -/
structure ToolDescriptor where
  name : String
  description : String
deriving DecidableEq, Repr

/-- The `python repl` tool configured in `_initialize_tools`. -/
def python_repl_tool : ToolDescriptor :=
  { name := "python repl",
    description := "Useful for executing Python code to answer computational questions" }

/-- The `wikipedia` tool configured in `_initialize_tools`. -/
def wikipedia_tool : ToolDescriptor :=
  { name := "wikipedia",
    description := "Useful for looking up factual information about topics, countries or people" }

/-- `self.tools`: the fixed, ordered tool registry. -/
def tools : List ToolDescriptor := [python_repl_tool, wikipedia_tool]

/-- `self.tools_str`: `"".join(f"{t.name}: {t.description}\n" for t in tools)`. -/
def tools_str : String :=
  String.join (tools.map (fun t => t.name ++ ": " ++ t.description ++ "\n"))

/-- `self.tool_names`: the list of tool names, in registry order. -/
def tool_names : List String := tools.map ToolDescriptor.name

/-- A single-quote character, built by code point to keep the template
strings below readable. -/
def squote : String := String.singleton (Char.ofNat 39)

/-- Python's `str(...)` rendering of a list of strings, as produced when
`PromptTemplate.format` substitutes `tool_names` into the template:
`['python repl', 'wikipedia']`. -/
def pyStrOfList (l : List String) : String :=
  "[" ++ String.intercalate ", " (l.map (fun s => squote ++ s ++ squote)) ++ "]"

/-- The agent prompt template of `MultiToolsAgent._create_prompt`, split
at its three placeholders `{tools}`, `{tool_names}` and `{question}`. -/
def agentTemplate1 : String :=
  "\n        Answer the following questions as best you can. You have access to the following tools:\n\n        "

def agentTemplate2 : String :=
  "\n\n        Use the following format:\n\n        Question: the input question you must answer\n        Thought: you should always think about what to do\n        Action: the action to take, should be one of "

def agentTemplate3 : String :=
  "\n        Action Input: the input to the action\n        Observation: the result of the action\n        ... (this Thought/Action/Action Input/Observation can repeat N times)\n        Thought: I now know the final answer\n        Final Answer: the final answer to the original input question\n\n        Begin!\n\n        Question: "

def agentTemplate4 : String := "\n        "

/-- The fully rendered agent prompt: the template with `{tools}`,
`{tool_names}` and `{question}` substituted, as done by
`prompt.format`/`chain.invoke` in `MultiToolsAgent.ask`. -/
def renderAgentPrompt (question : String) : String :=
  agentTemplate1 ++ tools_str ++ agentTemplate2 ++ pyStrOfList tool_names
    ++ agentTemplate3 ++ question ++ agentTemplate4

/-- The summarization prompt template of `YouTubeSummarizer.create_prompt`,
split at its placeholders `{YouTube_Transcript}` and `{top_n}`. -/
def summaryTemplate1 : String :=
  "\n        Summarize the following YouTube video transcript:\n\n        "

def summaryTemplate2 : String :=
  "\n\n        Please provide:\n        1. A brief overview of the video" ++ squote
    ++ "s main topic or theme\n        2. Identify the speakers.\n        3. The top "

def summaryTemplate3 : String :=
  " most important points or insights presented, with a short explanation for each\n        4. Any notable quotes or statements made by the speaker(s)\n        5. Key takeaways or conclusions from the video\n\n        Your response should be well-structured and easy to read\n        "

/-- The fully rendered summarization prompt: the template with
`{YouTube_Transcript}` and `{top_n}` substituted, as done by
`prompt.format`/`chain.invoke` in `YouTubeSummarizer.summarize`. -/
def renderSummaryPrompt (transcript : String) : String :=
  summaryTemplate1 ++ transcript ++ summaryTemplate2 ++ toString top_n_points
    ++ summaryTemplate3

/-! ### `YouTubeSummarizer.summarize` and `MultiToolsAgent.ask` -/

/-- `YouTubeSummarizer.summarize`.  The external completion client is the
parameter `completion` (taking the `ChatGroq` options and the rendered
prompt); the second component of the result records every completion call
made.  Faithful to the source: raise `ValueError` on an empty transcript,
otherwise invoke the chain once and wrap any failure in
`Exception(f"AI summarization failed: {e}")`. -/
def summarize (completion : ChatGroqOptions → String → Except String String)
    (transcript : String) : Except PyErr String × List (ChatGroqOptions × String) :=
  if transcript.isEmpty then
    (Except.error (PyErr.valueError ("Transcript is required for summarization")), [])
  else
    match completion summarizeChatGroqOptions (renderSummaryPrompt transcript) with
    | Except.ok out =>
      (Except.ok out, [(summarizeChatGroqOptions, renderSummaryPrompt transcript)])
    | Except.error e =>
      (Except.error (PyErr.exception ("AI summarization failed: " ++ e)),
        [(summarizeChatGroqOptions, renderSummaryPrompt transcript)])

/-- `MultiToolsAgent.ask`.  The question is an `Option String` so that the
Python `None` check (`if question is None: raise ValueError(...)`) is
modelled; the second component records every completion call made.
On a present question the chain renders the agent prompt and invokes the
completion model once, wrapping any failure in
`Exception(f"Error processing question: {e}")`. -/
def ask (completion : ChatGroqOptions → String → Except String String)
    (question : Option String) : Except PyErr String × List (ChatGroqOptions × String) :=
  match question with
  | none => (Except.error (PyErr.valueError ("Question cannot be None")), [])
  | some q =>
    match completion multiToolsChatGroqOptions (renderAgentPrompt q) with
    | Except.ok out =>
      (Except.ok out, [(multiToolsChatGroqOptions, renderAgentPrompt q)])
    | Except.error e =>
      (Except.error (PyErr.exception ("Error processing question: " ++ e)),
        [(multiToolsChatGroqOptions, renderAgentPrompt q)])

/-- C1 counterexample: a summarization request invokes the completion
model with temperature `0.5` (source comment: "Balance between creativity
and consistency"), not `0` as the claim states. -/
theorem summarize_temperature_counterexample :
    (summarize (fun _ _ => Except.ok ("S")) "T").2.map Prod.fst = [summarizeChatGroqOptions]
    ∧ summarizeChatGroqOptions.temperature = 1/2
    ∧ summarizeChatGroqOptions.temperature ≠ 0 :=
  ⟨rfl, rfl, by norm_num [summarizeChatGroqOptions]⟩

/-- C1 (amended): every completion call made by a question-answering
request uses temperature `0`, and every completion call made by a
summarization request uses temperature `0.5`; both kinds of call use
unlimited output length (`max_tokens=None`), no timeout, and up to 2
transport-layer retries. -/
theorem completion_options_spec
    (completion : ChatGroqOptions → String → Except String String)
    (transcript : String) (question : Option String)
    (call : ChatGroqOptions × String) :
    (call ∈ (summarize completion transcript).2 →
      call.1.temperature = 1/2 ∧ call.1.max_tokens = none
        ∧ call.1.timeout = none ∧ call.1.max_retries = 2)
    ∧ (call ∈ (ask completion question).2 →
      call.1.temperature = 0 ∧ call.1.max_tokens = none
        ∧ call.1.timeout = none ∧ call.1.max_retries = 2) := by
  constructor
  · intro hmem
    have hopts : call.1 = summarizeChatGroqOptions := by
      by_cases he : transcript.isEmpty
      · simp [summarize, he] at hmem
      · rcases hc : completion summarizeChatGroqOptions (renderSummaryPrompt transcript)
          with o | e <;> simp [summarize, he, hc] at hmem <;> simp [hmem]
    rw [hopts]
    exact ⟨rfl, rfl, rfl, rfl⟩
  · intro hmem
    have hopts : call.1 = multiToolsChatGroqOptions := by
      cases question with
      | none => simp [ask] at hmem
      | some q =>
        rcases hc : completion multiToolsChatGroqOptions (renderAgentPrompt q)
          with o | e <;> simp [ask, hc] at hmem <;> simp [hmem]
    rw [hopts]
    exact ⟨rfl, rfl, rfl, rfl⟩

/-- C1 witness: the amended claim instantiated at one summarization call
and one question-answering call. -/
theorem completion_options_spec_witness :
    ((summarizeChatGroqOptions, renderSummaryPrompt "T").1.temperature = 1/2
      ∧ (summarizeChatGroqOptions, renderSummaryPrompt "T").1.max_tokens = none
      ∧ (summarizeChatGroqOptions, renderSummaryPrompt "T").1.timeout = none
      ∧ (summarizeChatGroqOptions, renderSummaryPrompt "T").1.max_retries = 2)
    ∧ ((multiToolsChatGroqOptions, renderAgentPrompt "Q").1.temperature = 0
      ∧ (multiToolsChatGroqOptions, renderAgentPrompt "Q").1.max_tokens = none
      ∧ (multiToolsChatGroqOptions, renderAgentPrompt "Q").1.timeout = none
      ∧ (multiToolsChatGroqOptions, renderAgentPrompt "Q").1.max_retries = 2) := by
  constructor
  · apply (completion_options_spec (fun _ _ => Except.ok ("S")) "T" (some "Q") _).1
    rw [show (summarize (fun _ _ => Except.ok ("S")) "T").2
        = [(summarizeChatGroqOptions, renderSummaryPrompt "T")] from rfl]
    exact List.mem_singleton.mpr rfl
  · apply (completion_options_spec (fun _ _ => Except.ok ("S")) "T" (some "Q") _).2
    rw [show (ask (fun _ _ => Except.ok ("S")) (some "Q")).2
        = [(multiToolsChatGroqOptions, renderAgentPrompt "Q")] from rfl]
    exact List.mem_singleton.mpr rfl

/-- C7: `ask` with an absent (`None`) question fails with the
`MissingArgument` `ValueError` and makes no completion call at all (the
recorded call list is empty). -/
theorem ask_none_missing_argument
    (completion : ChatGroqOptions → String → Except String String) :
    ask completion none
      = (Except.error (PyErr.valueError ("Question cannot be None")),
          ([] : List (ChatGroqOptions × String))) := rfl

/-- C10: `ask` with the empty-string question is not rejected by the
`None` check: the result is never the `MissingArgument` `ValueError`, and
exactly one completion call is made, with the agent prompt rendered from
the empty question. -/
theorem ask_empty_string_proceeds
    (completion : ChatGroqOptions → String → Except String String)
    (question : Option String) (hq : question = some "") :
    (ask completion question).1 ≠ Except.error (PyErr.valueError ("Question cannot be None"))
    ∧ (ask completion question).2 = [(multiToolsChatGroqOptions, renderAgentPrompt "")] := by
  subst hq
  rcases hc : completion multiToolsChatGroqOptions (renderAgentPrompt "") with o | e <;>
    simp [ask, hc]

/-- C10 witness: the empty-string question with a concrete completion
function. -/
theorem ask_empty_string_proceeds_witness :
    ((ask (fun _ _ => Except.ok ("A")) (some "")).1
        ≠ Except.error (PyErr.valueError ("Question cannot be None")))
    ∧ (ask (fun _ _ => Except.ok ("A")) (some "")).2
        = [(multiToolsChatGroqOptions, renderAgentPrompt "")] :=
  ask_empty_string_proceeds _ _ rfl
